import Mathlib

/-!
Shallow embedding of the tonalize image-analysis core.

Sources embedded here:
- src/utils/faceDetection.ts (first variant): the inline skin-tone pixel
  predicate, analyzeForSkinTone, analyzeSkinUndertone, and the pure core of
  detectFace (the canvas plumbing is treated as the external collaborator
  that hands the cropped region pixel list to the pure logic).
- src/utils/colorAnalysis.ts: compareFaceSignatures, the consistency cache,
  createSkinToneHash, analyzeImage, getConsistentUndertone,
  mapUndertoneToSeason, getSkinToneName and the three palette tables.
- src/utils/imageFaceSegmentation.ts: isSkinTone and detectFaceRegion.

Modelling conventions:
- Pixel channels are ℤ (JavaScript numbers holding byte samples); comparisons
  such as r > b - 10 are exact in ℤ, matching JavaScript integer arithmetic.
- JavaScript floating-point divisions and the 0.8/0.2, 0.4, 0.01 and 0.2
  constants are modelled exactly in ℚ. For the properties proved here the
  float rounding of the reference implementation is immaterial: comparisons
  never sit within an ulp of a threshold at the inputs considered.
- A JavaScript NaN produced by 0/0 (compareFaceSignatures on two empty
  signatures) is modelled as Option.none; every NaN comparison is false,
  which the embedding reproduces at each use site.
- The 32-bit | 0 wrap of createSkinToneHash is modelled by toInt32.
- Array.prototype.sort is stable (ES2019); a stable sort with a total
  preorder has a unique output, so List.insertionSort with the same key is
  the identical function.
-/

set_option maxRecDepth 100000

namespace Tonalize

/-- One RGBA sample, alpha omitted (never read by the analysis code). -/
structure Pixel where
  r : ℤ
  g : ℤ
  b : ℤ
  deriving DecidableEq

inductive Undertone where
  | warm
  | cool
  | neutral
  deriving DecidableEq

inductive Season where
  | spring
  | summer
  | autumn
  | winter
  deriving DecidableEq

structure ColorInfo where
  name : String
  hex : String
  description : String
  deriving DecidableEq

structure AnalysisResultData where
  undertone : Undertone
  skinTone : String
  seasonalPalette : Season
  bestColors : List ColorInfo
  neutralColors : List ColorInfo
  avoidColors : List ColorInfo
  deriving DecidableEq

/-! faceDetection.ts -/

/-- The inline skin-tone predicate of faceDetection.ts (used both by
analyzeForSkinTone and analyzeSkinUndertone): lower bounds r>50, g>35, b>20,
r > b - 10, abs (r - g) < 60, r > g - 10, upper bounds r<245, g<225, b<205. -/
def isSkinTonePixel (p : Pixel) : Bool :=
  decide (50 < p.r ∧ 35 < p.g ∧ 20 < p.b ∧
    p.b - 10 < p.r ∧ |p.r - p.g| < 60 ∧ p.g - 10 < p.r ∧
    p.r < 245 ∧ p.g < 225 ∧ p.b < 205)

/-- Histogram bucket of a skin pixel: Math.floor of each channel over 20.
Distinct buckets correspond one-to-one to the distinct string keys of the
source histogram. -/
def skinBucket (p : Pixel) : ℤ × ℤ × ℤ :=
  (Int.fdiv p.r 20, Int.fdiv p.g 20, Int.fdiv p.b 20)

/-- analyzeForSkinTone: at least 20 percent skin-classified pixels and at
least 3 distinct histogram buckets. An empty pixel list gives 0/0 = NaN in
the source, and NaN > 20 is false, matching 0 > 20 here. -/
def analyzeForSkinTone (pixels : List Pixel) : Bool :=
  let skins := pixels.filter isSkinTonePixel
  let skinTonePercentage : ℚ := (skins.length : ℚ) / (pixels.length : ℚ) * 100
  let distinctBuckets := (skins.map skinBucket).dedup
  decide (20 < skinTonePercentage ∧ 3 ≤ distinctBuckets.length)

/-- Skin-classified samples collected by the analyzeSkinUndertone scan. -/
def skinSamples (canvas : List Pixel) : List Pixel :=
  canvas.filter isSkinTonePixel

/-- Sort key used by the source comparator (a.r+a.g+a.b) - (b.r+b.g+b.b). -/
def brightness (p : Pixel) : ℤ := p.r + p.g + p.b

/-- Samples sorted ascending by total brightness (stable, like ES2019
Array.prototype.sort with that comparator). -/
def sortedSamples (canvas : List Pixel) : List Pixel :=
  List.insertionSort (fun a b => brightness a ≤ brightness b) (skinSamples canvas)

/-- The median sample: element at index floor (count / 2) of the sorted
array. The default is never reached for the nonempty sample lists on which
the median is consulted. -/
def medianSample (canvas : List Pixel) : Pixel :=
  (sortedSamples canvas).getD ((skinSamples canvas).length / 2) ⟨0, 0, 0⟩

/-- Mean red channel over the collected skin samples. -/
def meanR (canvas : List Pixel) : ℚ :=
  (((skinSamples canvas).map Pixel.r).sum : ℚ) / ((skinSamples canvas).length : ℚ)

def meanG (canvas : List Pixel) : ℚ :=
  (((skinSamples canvas).map Pixel.g).sum : ℚ) / ((skinSamples canvas).length : ℚ)

def meanB (canvas : List Pixel) : ℚ :=
  (((skinSamples canvas).map Pixel.b).sum : ℚ) / ((skinSamples canvas).length : ℚ)

/-- Blended final color channel: 80 percent median, 20 percent mean. -/
def finalR (canvas : List Pixel) : ℚ :=
  ((medianSample canvas).r : ℚ) * (4 / 5) + meanR canvas * (1 / 5)

def finalG (canvas : List Pixel) : ℚ :=
  ((medianSample canvas).g : ℚ) * (4 / 5) + meanG canvas * (1 / 5)

def finalB (canvas : List Pixel) : ℚ :=
  ((medianSample canvas).b : ℚ) * (4 / 5) + meanB canvas * (1 / 5)

/-- analyzeSkinUndertone (faceDetection.ts): fewer than 50 skin pixels gives
neutral; else warm when R-B > 30 and R-G > 12, cool when R-B < 22 or
B > G, neutral otherwise. -/
def analyzeSkinUndertone (canvas : List Pixel) : Undertone :=
  if (skinSamples canvas).length < 50 then .neutral
  else if 30 < finalR canvas - finalB canvas ∧ 12 < finalR canvas - finalG canvas then .warm
  else if finalR canvas - finalB canvas < 22 ∨ finalG canvas < finalB canvas then .cool
  else .neutral

/-- Result record of detectFace as consumed by analyzeImage. The source
detectFace resolves with faceDetected and (on success) faceCanvas; it never
produces a faceSignature field, so the destructured faceSignature in
analyzeImage is undefined (modelled none). -/
structure DetectFaceResult where
  faceDetected : Bool
  faceCanvas : Option (List Pixel)
  faceSignature : Option (List ℤ)
  deriving DecidableEq

/-- Pure core of detectFace: the cropped candidate-region pixels are scanned
by analyzeForSkinTone; on success the region itself becomes the face canvas.
The image loading, resizing and cropping are the external collaborator. -/
def detectFaceCore (regionPixels : List Pixel) : DetectFaceResult :=
  if analyzeForSkinTone regionPixels then
    { faceDetected := true, faceCanvas := some regionPixels, faceSignature := none }
  else
    { faceDetected := false, faceCanvas := none, faceSignature := none }

/-! colorAnalysis.ts -/

/-- compareFaceSignatures: similarity 0 for unequal lengths, otherwise
max (0, 100 - meanAbsDiff * 0.4). Two empty signatures divide 0 by 0, which
is NaN in the source (and Math.max (0, NaN) is NaN): modelled as none. -/
def compareFaceSignatures (sig1 sig2 : List ℤ) : Option ℚ :=
  if sig1.length ≠ sig2.length then some 0
  else if sig1.length = 0 then none
  else
    let totalDifference : ℤ := (List.zipWith (fun x y => |x - y|) sig1 sig2).sum
    let avgDifference : ℚ := (totalDifference : ℚ) / (sig1.length : ℚ)
    some (max 0 (100 - avgDifference * (2 / 5)))

/-- The cache acceptance test similarityScore > 80; a NaN score compares
false in the source. -/
def simAccept (s : Option ℚ) : Bool :=
  match s with
  | none => false
  | some q => decide (80 < q)

structure CacheEntry where
  signature : List ℤ
  result : AnalysisResultData
  deriving DecidableEq

/-- The for-of scan over previousAnalyses: first entry in insertion order
whose similarity with the new signature exceeds 80. -/
def findSimilar (sig : List ℤ) : List CacheEntry → Option AnalysisResultData
  | [] => none
  | e :: rest =>
    if simAccept (compareFaceSignatures sig e.signature) then some e.result
    else findSimilar sig rest

/-- Two-complement 32-bit wrap of the JavaScript | 0 coercion. -/
def toInt32 (n : ℤ) : ℤ := (n + 2 ^ 31) % 2 ^ 32 - 2 ^ 31

/-- Indices visited by the createSkinToneHash loop: start, start+3, ...
strictly below stop. -/
def hashIndices (start stop : ℕ) : List ℕ :=
  (List.range ((stop - start + 2) / 3)).map (fun k => start + 3 * k)

/-- One loop body of createSkinToneHash: guarded on i+2 < length, then the
three shift-subtract-add accumulations, each wrapped to 32 bits by | 0.
hash << 5 is ToInt32 (hash * 32) (the running hash is already in 32-bit
range, so the inner ToInt32 of the shift operand is the identity). -/
def hashStep (sig : List ℤ) (h : ℤ) (i : ℕ) : ℤ :=
  if i + 2 < sig.length then
    let r := sig.getD i 0
    let g := sig.getD (i + 1) 0
    let b := sig.getD (i + 2) 0
    let h1 := toInt32 (toInt32 (h * 32) - h + r)
    let h2 := toInt32 (toInt32 (h1 * 16) - h1 + g)
    toInt32 (toInt32 (h2 * 8) - h2 + b)
  else h

/-- createSkinToneHash: rolling 32-bit hash over the central half of the
signature (indices floor (n/4) to floor (3n/4), stride 3), folded by
Math.abs and modulo 1,000,000. The empty signature short-circuits to 0 in
the source; here the loop is vacuous and yields the same 0. -/
def createSkinToneHash (sig : List ℤ) : ℕ :=
  let centralStart := sig.length / 4
  let centralEnd := sig.length * 3 / 4
  let hash := (hashIndices centralStart centralEnd).foldl (hashStep sig) 0
  hash.natAbs % 1000000

/-- getConsistentUndertone: a non-neutral detection is returned unchanged;
neutral is replaced according to hash modulo 3 (0 warm, 1 cool, 2 neutral). -/
def getConsistentUndertone (detectedUndertone : Undertone) (skinToneHash : ℕ) : Undertone :=
  match detectedUndertone with
  | .neutral =>
    if skinToneHash % 3 = 0 then .warm
    else if skinToneHash % 3 = 1 then .cool
    else .neutral
  | u => u

/-- mapUndertoneToSeason: hash is reduced modulo 100; warm splits
spring/autumn at 50, cool splits summer/winter at 50, neutral maps the four
quartiles to spring, summer, autumn, winter in order. -/
def mapUndertoneToSeason (undertone : Undertone) (hashValue : ℕ) : Season :=
  let hash := hashValue % 100
  match undertone with
  | .warm => if hash < 50 then .spring else .autumn
  | .cool => if hash < 50 then .summer else .winter
  | .neutral =>
    if hash < 25 then .spring
    else if hash < 50 then .summer
    else if hash < 75 then .autumn
    else .winter

def getSkinToneName (undertone : Undertone) : String :=
  match undertone with
  | .warm => "Warm / Golden"
  | .cool => "Cool / Rosy"
  | .neutral => "Neutral / Balanced"

def getBestColors (season : Season) : List ColorInfo :=
  match season with
  | .spring =>
    [⟨"Peach", "#FFD8B1", "Soft warm peach"⟩,
     ⟨"Coral", "#FF8370", "Bright warm coral"⟩,
     ⟨"Warm Yellow", "#FFD166", "Clear golden yellow"⟩,
     ⟨"Apple Green", "#80BD9E", "Fresh apple green"⟩,
     ⟨"Aqua", "#7FCDCD", "Clear light turquoise"⟩,
     ⟨"Periwinkle", "#98B6EB", "Light clear blue"⟩,
     ⟨"Salmon Pink", "#FF9A8D", "Warm pinkish coral"⟩,
     ⟨"Warm Red", "#E84A5F", "Clear tomato red"⟩]
  | .summer =>
    [⟨"Rose Pink", "#DBA1A1", "Soft muted rose"⟩,
     ⟨"Lavender", "#CBC5F9", "Soft muted purple"⟩,
     ⟨"Powder Blue", "#A3BBE3", "Soft blue with gray"⟩,
     ⟨"Sage Green", "#B2C9AB", "Muted soft green"⟩,
     ⟨"Mauve", "#C295A5", "Dusty rose pink"⟩,
     ⟨"Periwinkle", "#8F9FBC", "Muted blue-purple"⟩,
     ⟨"Soft Teal", "#7AA5A6", "Muted teal"⟩,
     ⟨"Raspberry", "#C25B7A", "Muted cool pink"⟩]
  | .autumn =>
    [⟨"Terracotta", "#C87C56", "Earthy warm orange"⟩,
     ⟨"Olive", "#8A8B60", "Muted yellow-green"⟩,
     ⟨"Rust", "#BF612A", "Deep orangey-brown"⟩,
     ⟨"Moss Green", "#606B38", "Deep muted green"⟩,
     ⟨"Teal", "#406A73", "Deep blue-green"⟩,
     ⟨"Bronze", "#C69F6A", "Warm metallic brown"⟩,
     ⟨"Tomato Red", "#AB3428", "Muted warm red"⟩,
     ⟨"Mustard", "#D2A54A", "Deep yellow-gold"⟩]
  | .winter =>
    [⟨"Royal Purple", "#6A3790", "Rich blue-purple"⟩,
     ⟨"Ice Blue", "#78A4C0", "Clear cool blue"⟩,
     ⟨"Emerald", "#00A383", "Deep clear green"⟩,
     ⟨"Crimson", "#C91F37", "Bold blue-red"⟩,
     ⟨"Fuchsia", "#D33682", "Vivid cool pink"⟩,
     ⟨"Navy", "#1F3659", "Deep blue"⟩,
     ⟨"Ice Pink", "#F0A1BF", "Cool clear pink"⟩,
     ⟨"Bright Blue", "#0078BF", "Clear strong blue"⟩]

def getNeutralColors (season : Season) : List ColorInfo :=
  match season with
  | .spring =>
    [⟨"Camel", "#C8A77E", "Light warm tan"⟩,
     ⟨"Ivory", "#FFF8E7", "Warm off-white"⟩,
     ⟨"Navy", "#2F3E5F", "Slightly warm navy"⟩,
     ⟨"Soft White", "#F5F5DC", "Warm cream white"⟩]
  | .summer =>
    [⟨"Taupe", "#BCB6A8", "Cool light brown"⟩,
     ⟨"Soft White", "#F0EEE9", "Cool off-white"⟩,
     ⟨"Slate Gray", "#708090", "Medium blue-gray"⟩,
     ⟨"Soft Navy", "#39516D", "Muted navy"⟩]
  | .autumn =>
    [⟨"Chocolate", "#6B4226", "Deep warm brown"⟩,
     ⟨"Cream", "#F2E4C8", "Warm soft yellow-white"⟩,
     ⟨"Khaki", "#B09D78", "Muted yellow-brown"⟩,
     ⟨"Dark Brown", "#4A3728", "Rich warm brown"⟩]
  | .winter =>
    [⟨"True White", "#FFFFFF", "Pure bright white"⟩,
     ⟨"Black", "#000000", "True black"⟩,
     ⟨"Charcoal", "#36454F", "Deep cool gray"⟩,
     ⟨"Silver Gray", "#C0C0C0", "Cool light gray"⟩]

def getAvoidColors (season : Season) : List ColorInfo :=
  match season with
  | .spring =>
    [⟨"Black", "#000000", "Too harsh"⟩,
     ⟨"Burgundy", "#800020", "Too deep and cool"⟩,
     ⟨"Plum", "#673147", "Too cool and muted"⟩,
     ⟨"Cool Gray", "#BEBEBE", "Too cool-toned"⟩]
  | .summer =>
    [⟨"Orange", "#FF7F00", "Too warm and bright"⟩,
     ⟨"Bright Yellow", "#FFFF00", "Too bright and warm"⟩,
     ⟨"Camel", "#C19A6B", "Too warm"⟩,
     ⟨"Tomato Red", "#FF6347", "Too warm and bright"⟩]
  | .autumn =>
    [⟨"True White", "#FFFFFF", "Too stark"⟩,
     ⟨"Fuchsia", "#FF00FF", "Too cool and bright"⟩,
     ⟨"Icy Blue", "#A5F2F3", "Too cool and clear"⟩,
     ⟨"Bubblegum Pink", "#FFC1CC", "Too cool and bright"⟩]
  | .winter =>
    [⟨"Cream", "#FFFDD0", "Too muted and warm"⟩,
     ⟨"Peach", "#FFE5B4", "Too warm and soft"⟩,
     ⟨"Camel", "#C19A6B", "Too warm and muted"⟩,
     ⟨"Moss Green", "#8A9A5B", "Too muted"⟩]

/-- The fallback record built in the catch branch of analyzeImage. -/
def fallbackResult : AnalysisResultData :=
  { undertone := .neutral, skinTone := "Neutral / Balanced", seasonalPalette := .summer,
    bestColors := getBestColors .summer, neutralColors := getNeutralColors .summer,
    avoidColors := getAvoidColors .summer }

/-- The freshly classified result of analyzeImage (the non-cached path):
hash from the signature (0 when missing), undertone from the face canvas
when a face was detected, else from the signature hash, else neutral;
then the season mapping and the three palette lookups. -/
def freshResult (d : DetectFaceResult) : AnalysisResultData :=
  let sigList := d.faceSignature.getD []
  let skinToneHash := createSkinToneHash sigList
  let undertone :=
    match d.faceDetected, d.faceCanvas with
    | true, some canvas => getConsistentUndertone (analyzeSkinUndertone canvas) skinToneHash
    | _, _ =>
      if 0 < sigList.length then
        if skinToneHash % 3 = 0 then Undertone.warm
        else if skinToneHash % 3 = 1 then Undertone.cool
        else Undertone.neutral
      else Undertone.neutral
  let seasonalPalette := mapUndertoneToSeason undertone skinToneHash
  { undertone := undertone, skinTone := getSkinToneName undertone,
    seasonalPalette := seasonalPalette,
    bestColors := getBestColors seasonalPalette,
    neutralColors := getNeutralColors seasonalPalette,
    avoidColors := getAvoidColors seasonalPalette }

/-- The cache write: shift the oldest entry when the store already holds 5,
then push the new pair. -/
def recordAnalysis (sig : List ℤ) (result : AnalysisResultData)
    (cache : List CacheEntry) : List CacheEntry :=
  if 5 ≤ cache.length then cache.tail ++ [{ signature := sig, result := result }]
  else cache ++ [{ signature := sig, result := result }]

/-- analyzeImage after detectFace resolved: with a nonempty signature, scan
the cache and short-circuit on the first similar entry; otherwise classify
fresh and (nonempty signature only) record the new pair. -/
def analyzeImageCore (d : DetectFaceResult) (cache : List CacheEntry) :
    AnalysisResultData × List CacheEntry :=
  let sigList := d.faceSignature.getD []
  if 0 < sigList.length then
    match findSimilar sigList cache with
    | some prev => (prev, cache)
    | none => (freshResult d, recordAnalysis sigList (freshResult d) cache)
  else (freshResult d, cache)

/-- analyzeImage including its try/catch: the promise only ever resolves,
and any error thrown by a sub-step (the Except.error case) resolves with
the fixed fallback record. -/
def analyzeImage (detect : Except String DetectFaceResult)
    (cache : List CacheEntry) : AnalysisResultData × List CacheEntry :=
  match detect with
  | .error _ => (fallbackResult, cache)
  | .ok d => analyzeImageCore d cache

/-! imageFaceSegmentation.ts -/

/-- isSkinTone of imageFaceSegmentation.ts: the union of the common-range,
lighter-skin and darker-skin rules. -/
def isSkinTone (r g b : ℤ) : Bool :=
  decide ((60 < r ∧ 40 < g ∧ 20 < b ∧ g < r ∧ b < r ∧ 15 < r - min g b ∧ |g - b| < 15) ∨
    (200 < r ∧ 140 < g ∧ 90 < b ∧ g < r ∧ b < g ∧ 30 < r - b) ∨
    (80 < r ∧ r < 200 ∧ 30 < g ∧ g < 170 ∧ 20 < b ∧ b < 150 ∧ g < r ∧ b < g))

/-- A decoded image: dimensions and the pixel at each (x, y). -/
structure ImageData where
  width : ℕ
  height : ℕ
  pix : ℕ → ℕ → Pixel

/-- The skin pixels collected by the row-major double loop of
detectFaceRegion. -/
def skinPixelList (img : ImageData) : List (ℕ × ℕ) :=
  (List.range img.height).flatMap (fun y =>
    ((List.range img.width).filter (fun x =>
      isSkinTone (img.pix x y).r (img.pix x y).g (img.pix x y).b)).map (fun x => (x, y)))

def skinMinX (img : ImageData) : ℤ :=
  (skinPixelList img).foldl (fun m p => min m (p.1 : ℤ)) (img.width : ℤ)

def skinMinY (img : ImageData) : ℤ :=
  (skinPixelList img).foldl (fun m p => min m (p.2 : ℤ)) (img.height : ℤ)

def skinMaxX (img : ImageData) : ℤ :=
  (skinPixelList img).foldl (fun m p => max m (p.1 : ℤ)) 0

def skinMaxY (img : ImageData) : ℤ :=
  (skinPixelList img).foldl (fun m p => max m (p.2 : ℤ)) 0

/-- faceWidth = maxX - minX of the skin bounding box. -/
def faceBoxW (img : ImageData) : ℤ := skinMaxX img - skinMinX img

/-- faceHeight = maxY - minY of the skin bounding box. -/
def faceBoxH (img : ImageData) : ℤ := skinMaxY img - skinMinY img

structure FaceRegion where
  x : ℤ
  y : ℤ
  width : ℤ
  height : ℤ
  deriving DecidableEq

/-- detectFaceRegion: density floor of 1 percent of the image, then the
aspect band check, then the in-box density check. JavaScript division
semantics at a degenerate box: width/0 with nonzero width is infinite and
rejected by the aspect band; 0/0 is NaN and both aspect comparisons are
false (no rejection), and the in-box density n/0 is Infinity or NaN, so the
density comparison is also false. The two guarded conditions spell exactly
those outcomes. -/
def detectFaceRegion (img : ImageData) : Option FaceRegion :=
  let skinPixels := skinPixelList img
  if (skinPixels.length : ℚ) < (img.width : ℚ) * (img.height : ℚ) * (1 / 100) then none
  else
    let fw := faceBoxW img
    let fh := faceBoxH img
    if (fh = 0 ∧ fw ≠ 0) ∨
        (fh ≠ 0 ∧ (2 < (fw : ℚ) / (fh : ℚ) ∨ (fw : ℚ) / (fh : ℚ) < 1 / 2)) then none
    else
      let faceArea := fw * fh
      if faceArea ≠ 0 ∧ (skinPixels.length : ℚ) / (faceArea : ℚ) < 1 / 5 then none
      else some { x := skinMinX img, y := skinMinY img, width := fw, height := fh }

/-! Concrete fixtures used by witnesses and counterexamples -/

/-- Default entry used only to express positional access in lookup lemmas;
never reached at in-range indices. -/
def defaultCacheEntry : CacheEntry := { signature := [], result := fallbackResult }

/-- A cache at capacity: five recorded entries. -/
def cacheFull : List CacheEntry :=
  List.replicate 5 { signature := [1, 2, 3], result := fallbackResult }

/-- A detection carrying a fresh nonempty signature that matches no entry of
cacheFull (similarity 72.8 against each stored signature). -/
def dNewFace : DetectFaceResult := ⟨false, none, some [200, 0, 0]⟩

/-- A two-entry cache: the head scores 73.3 against [100,100,100] (miss),
the second entry scores 99.6 (hit). -/
def cacheTwo : List CacheEntry :=
  [{ signature := [0, 0, 0], result := fallbackResult },
   { signature := [99, 99, 99], result := fallbackResult }]

def dHit : DetectFaceResult := ⟨false, none, some [100, 100, 100]⟩

def dMiss : DetectFaceResult := ⟨false, none, some [200, 0, 0]⟩

def blackPixel : Pixel := ⟨0, 0, 0⟩

/-- Fifty identical mid-tone warm samples: final color (200, 150, 120). -/
def warmCanvas : List Pixel := List.replicate 50 ⟨200, 150, 120⟩

/-- Fifty identical samples with equal green and blue: final color
(90, 60, 60), so the red-blue margin is exactly 30 and blue equals green. -/
def tiedCanvas : List Pixel := List.replicate 50 ⟨90, 60, 60⟩

/-- A 10 by 10 image with a 3 by 3 skin-colored block: a well-formed face
box of positive width and height. -/
def imgSquare : ImageData :=
  ⟨10, 10, fun x y => if 4 ≤ x ∧ x ≤ 6 ∧ 4 ≤ y ∧ y ≤ 6 then ⟨150, 100, 90⟩ else ⟨0, 0, 0⟩⟩

/-- A 5 by 5 image whose only skin-colored pixel is at (2, 3): its bounding
box degenerates to a point, the aspect test compares NaN (no rejection) and
the density test divides by zero (no rejection). -/
def imgLone : ImageData :=
  ⟨5, 5, fun x y => if x = 2 ∧ y = 3 then ⟨150, 100, 90⟩ else ⟨0, 0, 0⟩⟩

def regionLone : FaceRegion := ⟨2, 3, 0, 0⟩

def regionSquare : FaceRegion := ⟨4, 4, 2, 2⟩

/-- A 12 by 4 image (aspect ratio 3.0) containing a square 3 by 3 skin
block: the skin bounding box itself is square, so a face is reported. -/
def imgFaceBox : ImageData :=
  ⟨12, 4, fun x y => if 4 ≤ x ∧ x ≤ 6 ∧ y ≤ 2 then ⟨150, 100, 90⟩ else ⟨0, 0, 0⟩⟩

/-- A 20 by 20 image whose skin pixels form a 11-wide, 2-tall strip: the
bounding box has width 10 and height 1, aspect 10. -/
def imgWideBox : ImageData :=
  ⟨20, 20, fun x y => if 2 ≤ x ∧ x ≤ 12 ∧ 5 ≤ y ∧ y ≤ 6 then ⟨150, 100, 90⟩ else ⟨0, 0, 0⟩⟩

/-! Helper lemmas -/

lemma zipWith_absdiff_self_sum (a : List ℤ) :
    (List.zipWith (fun x y => |x - y|) a a).sum = 0 := by
  induction a with
  | nil => rfl
  | cons x t ih => simp [List.zipWith, ih]

lemma zipWith_absdiff_comm (a b : List ℤ) :
    List.zipWith (fun x y => |x - y|) a b = List.zipWith (fun x y => |x - y|) b a := by
  induction a generalizing b with
  | nil => cases b <;> rfl
  | cons x t ih =>
    cases b with
    | nil => rfl
    | cons y s => simp [List.zipWith, ih, abs_sub_comm]

lemma foldl_min_le_init {α : Type} (l : List α) (f : α → ℤ) :
    ∀ init : ℤ, l.foldl (fun m a => min m (f a)) init ≤ init := by
  induction l with
  | nil => intro init; simp
  | cons x t ih =>
    intro init
    exact le_trans (ih (min init (f x))) (min_le_left _ _)

lemma foldl_min_le_arg {α : Type} (l : List α) (f : α → ℤ) {a : α} (ha : a ∈ l) :
    ∀ init : ℤ, l.foldl (fun m a => min m (f a)) init ≤ f a := by
  induction l with
  | nil => cases ha
  | cons x t ih =>
    intro init
    rcases List.mem_cons.mp ha with h | h
    · subst h
      exact le_trans (foldl_min_le_init t f _) (min_le_right _ _)
    · exact ih h _

lemma foldl_min_lb {α : Type} (l : List α) (f : α → ℤ) (c : ℤ) :
    ∀ init : ℤ, c ≤ init → (∀ a ∈ l, c ≤ f a) →
      c ≤ l.foldl (fun m a => min m (f a)) init := by
  induction l with
  | nil => intro init h0 _; simpa using h0
  | cons x t ih =>
    intro init h0 hall
    exact ih _ (le_min h0 (hall x (List.mem_cons_self x t)))
      (fun a ha => hall a (List.mem_cons_of_mem x ha))

lemma init_le_foldl_max {α : Type} (l : List α) (f : α → ℤ) :
    ∀ init : ℤ, init ≤ l.foldl (fun m a => max m (f a)) init := by
  induction l with
  | nil => intro init; simp
  | cons x t ih =>
    intro init
    exact le_trans (le_max_left _ _) (ih (max init (f x)))

lemma le_foldl_max_arg {α : Type} (l : List α) (f : α → ℤ) {a : α} (ha : a ∈ l) :
    ∀ init : ℤ, f a ≤ l.foldl (fun m a => max m (f a)) init := by
  induction l with
  | nil => cases ha
  | cons x t ih =>
    intro init
    rcases List.mem_cons.mp ha with h | h
    · subst h
      exact le_trans (le_max_right _ _) (init_le_foldl_max t f _)
    · exact ih h _

lemma foldl_max_ub {α : Type} (l : List α) (f : α → ℤ) (c : ℤ) :
    ∀ init : ℤ, init < c → (∀ a ∈ l, f a < c) →
      l.foldl (fun m a => max m (f a)) init < c := by
  induction l with
  | nil => intro init h0 _; simpa using h0
  | cons x t ih =>
    intro init h0 hall
    exact ih _ (max_lt h0 (hall x (List.mem_cons_self x t)))
      (fun a ha => hall a (List.mem_cons_of_mem x ha))

lemma mem_skinPixelList {img : ImageData} {p : ℕ × ℕ} (hp : p ∈ skinPixelList img) :
    p.1 < img.width ∧ p.2 < img.height := by
  unfold skinPixelList at hp
  simp only [List.mem_flatMap, List.mem_map, List.mem_filter, List.mem_range] at hp
  obtain ⟨y, hy, x, ⟨hx, _⟩, hpe⟩ := hp
  rw [← hpe]
  exact ⟨hx, hy⟩

lemma skinPixelList_ne_nil_of_pass {img : ImageData}
    (hw : 0 < img.width) (hh : 0 < img.height)
    (hpass : ¬(((skinPixelList img).length : ℚ) <
      (img.width : ℚ) * (img.height : ℚ) * (1 / 100))) :
    skinPixelList img ≠ [] := by
  intro hnil
  apply hpass
  rw [hnil]
  have hw0 : (0 : ℚ) < (img.width : ℚ) := by exact_mod_cast hw
  have hh0 : (0 : ℚ) < (img.height : ℚ) := by exact_mod_cast hh
  simpa using mul_pos (mul_pos hw0 hh0) (show (0 : ℚ) < 1 / 100 by norm_num)

/-! C1 -/

/-- C1: analyzeImage never fails outward. The embedding is a total function
into AnalysisResultData, so every call resolves with a complete record; and
when any internal sub-step throws (the Except.error case of the awaited
detection), it resolves with exactly the documented fallback: undertone
neutral, skin-tone label Neutral / Balanced, seasonal palette summer, and
the summer best/neutral/avoid lists. The cache is left untouched. -/
theorem c1_analyze_never_fails_outward :
    (∀ (e : String) (cache : List CacheEntry),
      analyzeImage (.error e) cache = (fallbackResult, cache)) ∧
    fallbackResult.undertone = Undertone.neutral ∧
    fallbackResult.skinTone = "Neutral / Balanced" ∧
    fallbackResult.seasonalPalette = Season.summer ∧
    fallbackResult.bestColors = getBestColors .summer ∧
    fallbackResult.neutralColors = getNeutralColors .summer ∧
    fallbackResult.avoidColors = getAvoidColors .summer :=
  ⟨fun _ _ => rfl, rfl, rfl, rfl, rfl, rfl, rfl⟩

/-! C8 -/

/-- C8 (amended): compareFaceSignatures is symmetric for all signatures, and
equals 100 on the diagonal for every NONEMPTY signature; two signatures of
unequal length have similarity 0. On the pair of empty signatures the source
computes 0/0, so the score is NaN (none here), not 100. -/
theorem c8_similarity_symmetric_reflexive :
    (∀ a b : List ℤ, compareFaceSignatures a b = compareFaceSignatures b a) ∧
    (∀ a : List ℤ, a ≠ [] → compareFaceSignatures a a = some 100) ∧
    (∀ a b : List ℤ, a.length ≠ b.length → compareFaceSignatures a b = some 0) := by
  refine ⟨fun a b => ?_, fun a ha => ?_, fun a b hab => ?_⟩
  · unfold compareFaceSignatures
    split_ifs with h1 h2 h3 h4 <;>
      first
        | rfl
        | omega
        | (rw [zipWith_absdiff_comm a b]
           have hh : a.length = b.length := by omega
           rw [hh])
  · unfold compareFaceSignatures
    rw [if_neg (fun hc => hc rfl),
      if_neg (fun h0 => ha (List.length_eq_zero.mp h0))]
    rw [zipWith_absdiff_self_sum]
    norm_num
  · unfold compareFaceSignatures
    rw [if_pos hab]

/-- C8 witness: the symmetric/reflexive/unequal-length facts instantiated at
concrete signatures through the theorem. -/
theorem c8_witness :
    compareFaceSignatures [1, 2, 3] [1, 2, 3] = some 100 ∧
    compareFaceSignatures [1] [] = some 0 :=
  ⟨c8_similarity_symmetric_reflexive.2.1 [1, 2, 3] (by decide),
   c8_similarity_symmetric_reflexive.2.2 [1] [] (by decide)⟩

/-- C8 counterexample: on two empty signatures the source divides 0 by 0 and
Math.max propagates the NaN, so the score is not 100 (and the 80-threshold
acceptance treats it as no match). -/
theorem c8_counterexample :
    compareFaceSignatures [] [] = none ∧ compareFaceSignatures [] [] ≠ some 100 := by
  constructor
  · rfl
  · intro h
    simp [compareFaceSignatures] at h

lemma filter_replicate_black (n : ℕ) :
    (List.replicate n blackPixel).filter isSkinTonePixel = [] := by
  induction n with
  | zero => rfl
  | succ n ih =>
    rw [List.replicate_succ, List.filter_cons,
      show isSkinTonePixel blackPixel = false from rfl]
    simp [ih]

lemma analyzeForSkinTone_black (n : ℕ) :
    analyzeForSkinTone (List.replicate n blackPixel) = false := by
  unfold analyzeForSkinTone
  rw [filter_replicate_black]
  simp

lemma detectFaceCore_black (n : ℕ) :
    detectFaceCore (List.replicate n blackPixel) =
      { faceDetected := false, faceCanvas := none, faceSignature := none } := by
  unfold detectFaceCore
  rw [analyzeForSkinTone_black]
  simp

/-! C3 -/

/-- C3 (amended): for an all-black input image the pipeline collects zero
skin samples and detects no face, and the resulting undertone is neutral;
but the resulting seasonal palette is spring, not summer: with no face and
no signature the hash is 0 and the neutral mapping sends hash 0 (first
quartile) to spring. -/
theorem c3_all_black_fallback (n : ℕ) (cache : List CacheEntry) :
    skinSamples (List.replicate n blackPixel) = [] ∧
    (detectFaceCore (List.replicate n blackPixel)).faceDetected = false ∧
    (analyzeImage (.ok (detectFaceCore (List.replicate n blackPixel))) cache).1.undertone
      = Undertone.neutral ∧
    (analyzeImage (.ok (detectFaceCore (List.replicate n blackPixel))) cache).1.seasonalPalette
      = Season.spring := by
  refine ⟨filter_replicate_black n, ?_, ?_, ?_⟩ <;> rw [detectFaceCore_black n] <;> rfl

/-- C3 counterexample: at a concrete 100-pixel all-black image the analysis
palette is spring, which is not the summer the claim states. -/
theorem c3_counterexample :
    (analyzeImage (.ok (detectFaceCore (List.replicate 100 blackPixel))) []).1.seasonalPalette
      = Season.spring ∧ Season.spring ≠ Season.summer :=
  ⟨by with_unfolding_all decide, by decide⟩

/-! C5 -/

/-- C5 (amended): analyzeSkinUndertone returns neutral whenever fewer than
50 skin-classified pixels are found; otherwise, for the blended final color
(80 percent median, 20 percent mean), it returns warm exactly when R-B > 30
and R-G > 12, cool exactly when warm fails and (R-B < 22 or blue STRICTLY
exceeds green), and neutral otherwise. (The claim stated blue meets or
exceeds green; the source comparison finalB > finalG is strict.) -/
theorem c5_undertone_thresholds (canvas : List Pixel) :
    ((skinSamples canvas).length < 50 → analyzeSkinUndertone canvas = .neutral) ∧
    (50 ≤ (skinSamples canvas).length →
      ((analyzeSkinUndertone canvas = .warm ↔
          30 < finalR canvas - finalB canvas ∧ 12 < finalR canvas - finalG canvas) ∧
       (analyzeSkinUndertone canvas = .cool ↔
          ¬(30 < finalR canvas - finalB canvas ∧ 12 < finalR canvas - finalG canvas) ∧
          (finalR canvas - finalB canvas < 22 ∨ finalG canvas < finalB canvas)) ∧
       (analyzeSkinUndertone canvas = .neutral ↔
          ¬(30 < finalR canvas - finalB canvas ∧ 12 < finalR canvas - finalG canvas) ∧
          ¬(finalR canvas - finalB canvas < 22 ∨ finalG canvas < finalB canvas)))) := by
  constructor
  · intro h
    unfold analyzeSkinUndertone
    rw [if_pos h]
  · intro h
    have h0 : ¬((skinSamples canvas).length < 50) := by omega
    unfold analyzeSkinUndertone
    rw [if_neg h0]
    by_cases hW : 30 < finalR canvas - finalB canvas ∧ 12 < finalR canvas - finalG canvas
    · rw [if_pos hW]
      refine ⟨⟨fun _ => hW, fun _ => rfl⟩, ?_, ?_⟩ <;>
        constructor <;> intro hx <;> simp_all
    · rw [if_neg hW]
      by_cases hC : finalR canvas - finalB canvas < 22 ∨ finalG canvas < finalB canvas
      · rw [if_pos hC]
        refine ⟨?_, ⟨fun _ => ⟨hW, hC⟩, fun _ => rfl⟩, ?_⟩ <;>
          constructor <;> intro hx <;> simp_all
      · rw [if_neg hC]
        refine ⟨?_, ?_, ⟨fun _ => ⟨hW, hC⟩, fun _ => rfl⟩⟩ <;>
          constructor <;> intro hx <;> simp_all

/-- C5 witness: fifty identical samples (200, 150, 120) pass the count
floor, and both warm margins hold (R-B = 80, R-G = 50), so the classifier
answers warm through the theorem. -/
theorem c5_witness :
    50 ≤ (skinSamples warmCanvas).length ∧ analyzeSkinUndertone warmCanvas = .warm :=
  ⟨by with_unfolding_all decide,
   ((c5_undertone_thresholds warmCanvas).2 (by with_unfolding_all decide)).1.mpr
     (by with_unfolding_all decide)⟩

/-- C5 counterexample: fifty identical samples (90, 60, 60) give a final
color whose blue EQUALS green and whose red-blue margin is 30 (not below
22). The claim as stated (blue meets or exceeds green forces cool) demands
cool here, but the source returns neutral because finalB > finalG is
strict. -/
theorem c5_counterexample :
    50 ≤ (skinSamples tiedCanvas).length ∧
    finalB tiedCanvas = finalG tiedCanvas ∧
    ¬(finalR tiedCanvas - finalB tiedCanvas < 22) ∧
    analyzeSkinUndertone tiedCanvas ≠ .cool ∧
    analyzeSkinUndertone tiedCanvas = .neutral := by
  refine ⟨?_, ?_, ?_, ?_, ?_⟩ <;> with_unfolding_all decide

/-! C2 -/

/-- C2: the consistency cache holds at most 5 entries after every completed
analysis (given it held at most 5 before, which is invariant from the empty
initial cache); the cache is unchanged when the signature is empty or
missing, and on an analysis error; and at capacity 5 the earliest-recorded
entry (the list head) is evicted before the fresh pair is appended. -/
theorem c2_cache_bound_fifo :
    (∀ (detect : Except String DetectFaceResult) (cache : List CacheEntry),
      cache.length ≤ 5 → (analyzeImage detect cache).2.length ≤ 5) ∧
    (∀ (d : DetectFaceResult) (cache : List CacheEntry),
      d.faceSignature.getD [] = [] → (analyzeImage (.ok d) cache).2 = cache) ∧
    (∀ (e : String) (cache : List CacheEntry),
      (analyzeImage (.error e) cache).2 = cache) ∧
    (∀ (d : DetectFaceResult) (cache : List CacheEntry) (sig : List ℤ),
      d.faceSignature = some sig → sig ≠ [] →
      findSimilar sig cache = none → cache.length = 5 →
      (analyzeImage (.ok d) cache).2 =
        cache.tail ++ [{ signature := sig, result := freshResult d }]) := by
  refine ⟨fun detect cache hle => ?_, fun d cache hsig => ?_, fun e cache => rfl,
    fun d cache sig hs hne hfind hlen => ?_⟩
  · cases detect with
    | error e => simpa using hle
    | ok d =>
      show (analyzeImageCore d cache).2.length ≤ 5
      unfold analyzeImageCore
      by_cases hsig : 0 < (d.faceSignature.getD []).length
      · rw [if_pos hsig]
        cases hfind : findSimilar (d.faceSignature.getD []) cache with
        | some prev => simpa using hle
        | none =>
          simp only [hfind]
          unfold recordAnalysis
          by_cases hc : 5 ≤ cache.length
          · rw [if_pos hc]
            simp only [List.length_append, List.length_tail, List.length_cons,
              List.length_nil]
            omega
          · rw [if_neg hc]
            simp only [List.length_append, List.length_cons, List.length_nil]
            omega
      · rw [if_neg hsig]
        simpa using hle
  · show (analyzeImageCore d cache).2 = cache
    unfold analyzeImageCore
    rw [hsig]
    simp
  · have hget : d.faceSignature.getD [] = sig := by rw [hs]; rfl
    have hpos : 0 < sig.length := List.length_pos.mpr hne
    show (analyzeImageCore d cache).2 = _
    unfold analyzeImageCore
    rw [hget, if_pos hpos]
    simp only [hfind]
    unfold recordAnalysis
    rw [if_pos (by omega)]

/-- C2 witness: a full cache of 5 entries, a fresh nonempty signature that
matches no stored entry; the bound, the no-signature no-op and the FIFO
eviction instantiated through the theorem. -/
theorem c2_witness :
    cacheFull.length ≤ 5 ∧
    (analyzeImage (.ok dNewFace) cacheFull).2.length ≤ 5 ∧
    (analyzeImage (.ok ⟨false, none, none⟩) cacheFull).2 = cacheFull ∧
    (analyzeImage (.ok dNewFace) cacheFull).2 =
      cacheFull.tail ++ [{ signature := [200, 0, 0], result := freshResult dNewFace }] :=
  ⟨by decide,
   c2_cache_bound_fifo.1 (.ok dNewFace) cacheFull (by decide),
   c2_cache_bound_fifo.2.1 ⟨false, none, none⟩ cacheFull rfl,
   c2_cache_bound_fifo.2.2.2 dNewFace cacheFull [200, 0, 0] rfl (by decide)
     (by with_unfolding_all decide) (by decide)⟩

/-! C4 -/

/-- C4: cache lookup is first-match in insertion order with strict
threshold 80: the scan returns the result of the first stored entry whose
similarity with the new signature exceeds 80; when no entry qualifies the
lookup reports no match and analyzeImage proceeds to fresh classification
(recording the new pair); and a cache hit leaves the cache unchanged. -/
theorem c4_cache_lookup_first_match :
    (∀ (sig : List ℤ) (cache : List CacheEntry) (i : ℕ), i < cache.length →
      (∀ j, j < i →
        simAccept (compareFaceSignatures sig (cache.getD j defaultCacheEntry).signature)
          = false) →
      simAccept (compareFaceSignatures sig (cache.getD i defaultCacheEntry).signature)
        = true →
      findSimilar sig cache = some (cache.getD i defaultCacheEntry).result) ∧
    (∀ (sig : List ℤ) (cache : List CacheEntry),
      (∀ e ∈ cache, simAccept (compareFaceSignatures sig e.signature) = false) →
      findSimilar sig cache = none) ∧
    (∀ (d : DetectFaceResult) (cache : List CacheEntry) (sig : List ℤ)
        (r : AnalysisResultData),
      d.faceSignature = some sig → sig ≠ [] →
      findSimilar sig cache = some r →
      analyzeImage (.ok d) cache = (r, cache)) ∧
    (∀ (d : DetectFaceResult) (cache : List CacheEntry) (sig : List ℤ),
      d.faceSignature = some sig → sig ≠ [] →
      findSimilar sig cache = none →
      analyzeImage (.ok d) cache =
        (freshResult d, recordAnalysis sig (freshResult d) cache)) := by
  refine ⟨fun sig cache => ?_, fun sig cache => ?_,
    fun d cache sig r hs hne hfind => ?_, fun d cache sig hs hne hfind => ?_⟩
  · induction cache with
    | nil => intro i hi; simp at hi
    | cons e rest ih =>
      intro i hi hbefore hacc
      cases i with
      | zero =>
        unfold findSimilar
        simp only [List.getD_cons_zero] at hacc
        rw [if_pos hacc]
        simp
      | succ i =>
        have hhead : simAccept (compareFaceSignatures sig e.signature) = false := by
          have := hbefore 0 (Nat.succ_pos i)
          simpa using this
        unfold findSimilar
        rw [if_neg (by simp [hhead])]
        simp only [List.getD_cons_succ]
        exact ih i (by simpa using hi)
          (fun j hj => by simpa using hbefore (j + 1) (by omega)) (by simpa using hacc)
  · induction cache with
    | nil => intro _; rfl
    | cons e rest ih =>
      intro hall
      unfold findSimilar
      rw [if_neg (by simp [hall e (List.mem_cons_self e rest)])]
      exact ih (fun x hx => hall x (List.mem_cons_of_mem e hx))
  · have hget : d.faceSignature.getD [] = sig := by rw [hs]; rfl
    have hpos : 0 < sig.length := List.length_pos.mpr hne
    show analyzeImageCore d cache = _
    unfold analyzeImageCore
    rw [hget, if_pos hpos]
    simp [hfind]
  · have hget : d.faceSignature.getD [] = sig := by rw [hs]; rfl
    have hpos : 0 < sig.length := List.length_pos.mpr hne
    show analyzeImageCore d cache = _
    unfold analyzeImageCore
    rw [hget, if_pos hpos]
    simp [hfind]

/-- C4 witness: a two-entry cache where the first entry scores 73.3 (no
match) and the second scores 99.6 (match): the lookup returns the second
result; a signature matching nothing yields no match and a recorded fresh
classification; a hit leaves the cache unchanged. -/
theorem c4_witness :
    findSimilar [100, 100, 100] cacheTwo = some (cacheTwo.getD 1 defaultCacheEntry).result ∧
    findSimilar [200, 0, 0] cacheTwo = none ∧
    analyzeImage (.ok dHit) cacheTwo = ((cacheTwo.getD 1 defaultCacheEntry).result, cacheTwo) ∧
    analyzeImage (.ok dMiss) cacheTwo =
      (freshResult dMiss, recordAnalysis [200, 0, 0] (freshResult dMiss) cacheTwo) :=
  ⟨c4_cache_lookup_first_match.1 [100, 100, 100] cacheTwo 1 (by decide)
      (fun j hj => by
        have hj0 : j = 0 := by omega
        subst hj0
        with_unfolding_all decide)
      (by with_unfolding_all decide),
   c4_cache_lookup_first_match.2.1 [200, 0, 0] cacheTwo
      (by
        intro e he
        fin_cases he <;> with_unfolding_all decide),
   c4_cache_lookup_first_match.2.2.1 dHit cacheTwo [100, 100, 100]
      (cacheTwo.getD 1 defaultCacheEntry).result rfl (by decide)
      (by with_unfolding_all decide),
   c4_cache_lookup_first_match.2.2.2 dMiss cacheTwo [200, 0, 0] rfl (by decide)
      (by with_unfolding_all decide)⟩

/-! C9 -/

/-- C9: createSkinToneHash is a pure deterministic function of the signature
values and order (equal signatures give equal hashes), its result is a
natural number strictly below 1,000,000, and the empty (or missing, which
hashes the empty list) signature hashes to 0. -/
theorem c9_hash_deterministic_bounded :
    (∀ sig : List ℤ, createSkinToneHash sig < 1000000) ∧
    createSkinToneHash [] = 0 ∧
    (∀ s t : List ℤ, s = t → createSkinToneHash s = createSkinToneHash t) :=
  ⟨fun _ => Nat.mod_lt _ (by norm_num), rfl, fun _ _ h => by rw [h]⟩

/-- C9 witness: the bound and determinism applied at a concrete signature. -/
theorem c9_witness :
    createSkinToneHash [10, 20, 30] < 1000000 ∧
    createSkinToneHash [10, 20, 30] = createSkinToneHash [10, 20, 30] :=
  ⟨c9_hash_deterministic_bounded.1 [10, 20, 30],
   c9_hash_deterministic_bounded.2.2 [10, 20, 30] [10, 20, 30] rfl⟩

/-! C10 -/

/-- C10: getConsistentUndertone never overrides a non-neutral
classification; a detected neutral becomes warm, cool or neutral according
to the hash modulo 3; and through analyzeImage the reported undertone can be
warm even though the pixel-level classifier returned neutral (face detected,
empty face canvas so the classifier yields neutral, all-zero signature so
the hash is 0 and 0 mod 3 selects warm). -/
theorem c10_consistent_undertone :
    (∀ h : ℕ, getConsistentUndertone .warm h = .warm) ∧
    (∀ h : ℕ, getConsistentUndertone .cool h = .cool) ∧
    (∀ h : ℕ, getConsistentUndertone .neutral h =
      if h % 3 = 0 then .warm else if h % 3 = 1 then .cool else .neutral) ∧
    analyzeSkinUndertone [] = .neutral ∧
    (analyzeImage (.ok ⟨true, some [], some (List.replicate 75 (0 : ℤ))⟩) []).1.undertone
      = .warm := by
  refine ⟨fun _ => rfl, fun _ => rfl, fun _ => rfl, by decide, ?_⟩
  with_unfolding_all decide

/-! C6 -/

/-- C6 (amended): every face region returned by detectFaceRegion on an
image of positive dimensions lies within the source bounds; its width and
height are both positive OR both zero. The degenerate both-zero box arises
when the image holds exactly one skin pixel: width/height is then 0/0, NaN
in the source, which neither aspect comparison rejects, and the in-box
density divides by zero, which the density comparison does not reject
either. -/
theorem c6_region_geometry (img : ImageData) (hw : 0 < img.width)
    (hh : 0 < img.height) (region : FaceRegion)
    (hdet : detectFaceRegion img = some region) :
    0 ≤ region.x ∧ 0 ≤ region.y ∧
    region.x + region.width < (img.width : ℤ) ∧
    region.y + region.height < (img.height : ℤ) ∧
    ((0 < region.width ∧ 0 < region.height) ∨
      (region.width = 0 ∧ region.height = 0)) := by
  simp only [detectFaceRegion] at hdet
  split_ifs at hdet with h1 h2 h3
  injection hdet with hregion
  subst hregion
  dsimp only
  have hne : skinPixelList img ≠ [] := skinPixelList_ne_nil_of_pass hw hh h1
  obtain ⟨p, hp⟩ := List.exists_mem_of_ne_nil _ hne
  obtain ⟨hpx, hpy⟩ := mem_skinPixelList hp
  have hx0 : (0 : ℤ) ≤ skinMinX img :=
    foldl_min_lb _ _ 0 _ (by exact_mod_cast Nat.zero_le _)
      (fun a _ => by exact_mod_cast Nat.zero_le _)
  have hy0 : (0 : ℤ) ≤ skinMinY img :=
    foldl_min_lb _ _ 0 _ (by exact_mod_cast Nat.zero_le _)
      (fun a _ => by exact_mod_cast Nat.zero_le _)
  have hxw : skinMaxX img < (img.width : ℤ) :=
    foldl_max_ub _ _ _ _ (by exact_mod_cast hw)
      (fun a ha => by exact_mod_cast (mem_skinPixelList ha).1)
  have hyh : skinMaxY img < (img.height : ℤ) :=
    foldl_max_ub _ _ _ _ (by exact_mod_cast hh)
      (fun a ha => by exact_mod_cast (mem_skinPixelList ha).2)
  have hxmm : skinMinX img ≤ skinMaxX img :=
    le_trans (foldl_min_le_arg _ _ hp _) (le_foldl_max_arg _ _ hp _)
  have hymm : skinMinY img ≤ skinMaxY img :=
    le_trans (foldl_min_le_arg _ _ hp _) (le_foldl_max_arg _ _ hp _)
  refine ⟨hx0, hy0, ?_, ?_, ?_⟩
  · show skinMinX img + (skinMaxX img - skinMinX img) < (img.width : ℤ)
    omega
  · show skinMinY img + (skinMaxY img - skinMinY img) < (img.height : ℤ)
    omega
  · push_neg at h2
    obtain ⟨h2a, h2b⟩ := h2
    by_cases hfh : faceBoxH img = 0
    · exact Or.inr ⟨h2a hfh, hfh⟩
    · left
      have hfhpos : 0 < faceBoxH img := by
        unfold faceBoxH at hfh ⊢
        omega
      refine ⟨?_, hfhpos⟩
      have hfw0 : faceBoxW img ≠ 0 := by
        intro hfw
        have hq : (faceBoxW img : ℚ) / (faceBoxH img : ℚ) = 0 := by
          rw [hfw]
          simp
        have := (h2b hfh).2
        rw [hq] at this
        norm_num at this
      unfold faceBoxW at hfw0 ⊢
      omega

/-- C6 witness: the theorem applied to the 10 by 10 image with a 3 by 3
skin block, whose detected region is (4, 4) with width 2 and height 2. -/
theorem c6_witness :
    0 ≤ regionSquare.x ∧ 0 ≤ regionSquare.y ∧
    regionSquare.x + regionSquare.width < (imgSquare.width : ℤ) ∧
    regionSquare.y + regionSquare.height < (imgSquare.height : ℤ) ∧
    ((0 < regionSquare.width ∧ 0 < regionSquare.height) ∨
      (regionSquare.width = 0 ∧ regionSquare.height = 0)) :=
  c6_region_geometry imgSquare (by decide) (by decide) regionSquare
    (by with_unfolding_all decide)

/-- C6 counterexample: the 5 by 5 image with a single skin pixel at (2, 3)
yields a non-null face region of width 0 and height 0, refuting the claimed
width > 0 and height > 0 invariant. -/
theorem c6_counterexample :
    detectFaceRegion imgLone = some regionLone ∧ ¬(0 < regionLone.width) :=
  ⟨by with_unfolding_all decide, by decide⟩

/-! C7 -/

/-- C7 (amended): detectFaceRegion reports no face whenever the skin-pixel
bounding box has positive height and its width/height ratio lies outside the
band [0.5, 2]; in particular a bounding box of aspect ratio 3.0 is always
rejected. The claim as frozen asserted this of every IMAGE with aspect
ratio 3.0, which the counterexample refutes: only the skin-box ratio is
tested. -/
theorem c7_aspect_rejection (img : ImageData) (hfh : 0 < faceBoxH img)
    (hband : 2 < (faceBoxW img : ℚ) / (faceBoxH img : ℚ) ∨
      (faceBoxW img : ℚ) / (faceBoxH img : ℚ) < 1 / 2) :
    detectFaceRegion img = none := by
  simp only [detectFaceRegion]
  split_ifs with h1 h2 h3 <;> try rfl
  exact absurd (Or.inr ⟨by omega, hband⟩) h2

/-- C7 witness: the 20 by 20 image whose skin strip has bounding box width
10 and height 1 (ratio 10) is rejected through the theorem. -/
theorem c7_witness :
    0 < faceBoxH imgWideBox ∧
    2 < (faceBoxW imgWideBox : ℚ) / (faceBoxH imgWideBox : ℚ) ∧
    detectFaceRegion imgWideBox = none :=
  ⟨by with_unfolding_all decide, by with_unfolding_all decide,
   c7_aspect_rejection imgWideBox (by with_unfolding_all decide)
     (Or.inl (by with_unfolding_all decide))⟩

/-- C7 counterexample: a 12 by 4 image, aspect ratio exactly 3.0, whose skin
pixels form a square block: detection reports a face, refuting the frozen
claim that every image with aspect ratio 3.0 yields no face. -/
theorem c7_counterexample :
    (imgFaceBox.width : ℚ) / (imgFaceBox.height : ℚ) = 3 ∧
    detectFaceRegion imgFaceBox = some ⟨4, 0, 2, 2⟩ ∧
    detectFaceRegion imgFaceBox ≠ none := by
  refine ⟨?_, ?_, ?_⟩ <;> with_unfolding_all decide

end Tonalize
